import Mathlib

/-
Verification development for the GPIO controller of the
embedded-services-pi3b repository (src/include/gpio_controller.hpp).

The header declares the data model (PinNumber, Direction, Value, GpioError),
the constexpr to_string mapping and the make_gpio_pin helper with full
bodies; the member functions of GpioPin and GpioPinGroup are declared but
their bodies are not part of the sources, so they are modelled from the
specification (sections 4.1, 4.2, 6 and 7 of spec.md), with explicit state
passing over a small filesystem model of the sysfs pseudo-file collaborator.
Machine integers appear as Nat with explicit reduction modulo 2 to the 8
where the C++ performs a conversion to the uint8-based enum.
-/

namespace EmbeddedGpio

/-- Direction enum, from the source: INPUT and OUTPUT. -/
inductive Direction where
  | INPUT
  | OUTPUT
deriving DecidableEq

/-- Value enum, from the source: LOW = 0, HIGH = 1. -/
inductive Value where
  | LOW
  | HIGH
deriving DecidableEq

/-- GpioError enum, from the source: six enumerators. -/
inductive GpioError where
  | PIN_NOT_EXPORTED
  | INVALID_DIRECTION
  | READ_FAILED
  | WRITE_FAILED
  | PERMISSION_DENIED
  | DEVICE_BUSY
deriving DecidableEq, Fintype

/-- Underlying integer of each GpioError enumerator (C++ enum class with
default underlying type int, enumerators numbered 0 to 5 in order). -/
def GpioError.toUnderlying : GpioError → Int
  | .PIN_NOT_EXPORTED => 0
  | .INVALID_DIRECTION => 1
  | .READ_FAILED => 2
  | .WRITE_FAILED => 3
  | .PERMISSION_DENIED => 4
  | .DEVICE_BUSY => 5

/-- Embedding of the constexpr to_string switch from the source, lines 90
to 100, over the underlying integer of the enum (a C++ enum class value may
hold any value of its underlying type, and the switch has a default arm). -/
def to_string (error : Int) : String :=
  if error = 0 then "GPIO pin not exported"
  else if error = 1 then "Invalid GPIO direction"
  else if error = 2 then "Failed to read GPIO value"
  else if error = 3 then "Failed to write GPIO value"
  else if error = 4 then "Permission denied accessing GPIO"
  else if error = 5 then "GPIO device is busy"
  else "Unknown GPIO error"

/-- The PinNumber enumerators from the source, lines 24 to 51: GPIO_2 = 2
through GPIO_27 = 27, each listed explicitly. -/
def pinNumberValues : List Nat :=
  [2, 3, 4, 5, 6, 7, 8, 9, 10, 11, 12, 13, 14, 15, 16, 17, 18, 19, 20,
   21, 22, 23, 24, 25, 26, 27]

/-- Descriptor of an argument type admitted to the make_gpio_pin template:
either the PinNumber enum itself, or an integral type of a given byte
size. -/
inductive CppNumKind where
  | pinNumberType
  | integralType (sizeBytes : Nat)
deriving DecidableEq

/-- The GpioPinType concept from the source, lines 105 to 107: the type is
PinNumber, or it is integral with sizeof at most sizeof(uint8), which is
one byte. -/
def GpioPinType : CppNumKind → Bool
  | .pinNumberType => true
  | .integralType s => decide (s ≤ 1)

deriving instance DecidableEq for Except

/-- Events observable on the sysfs collaborator: an export request write,
an unexport request write, a write to a per-pin control file, and the
suspension performed inside pulse. -/
inductive Event where
  | exportReq (pin : Nat)
  | unexportReq (pin : Nat)
  | fileWrite (pin : Nat) (file : String) (content : String)
  | sleep (usec : Nat)
deriving DecidableEq

/-- Model of the external pseudo-file tree together with the environment
oracles that decide which I/O operations succeed, and a log of the write
and sleep events attempted (attempts are logged whether or not the oracle
lets them succeed). The write oracle may depend on the content written, so
that distinct writes to one file can fail independently. -/
structure Fs where
  contents : Nat → String → String
  exportedDir : Nat → Bool
  exportOk : Nat → Bool
  unexportOk : Nat → Bool
  writeOk : Nat → String → String → Bool
  readOk : Nat → String → Bool
  log : List Event

/-- The state of a GpioPin handle, from the source, lines 188 to 191: the
pin number, the sysfs path of the pin directory, and the exported flag. -/
structure GpioPin where
  pin_ : Nat
  gpio_path_ : String
  exported_ : Bool
deriving DecidableEq

/-- Sysfs path of the control directory for a pin. -/
def gpioPathFor (pin : Nat) : String :=
  "/sys/class/gpio/gpio" ++ Nat.repr pin

/-- Modelled from the spec: is_ready returns true iff the handle currently
owns an active export (section 4.1, a pure state query with no I/O); the
body of GpioPin::is_ready is not in the sources. -/
def GpioPin.is_ready (p : GpioPin) : Bool := p.exported_

/-- The pin_number accessor, from the source, line 179. -/
def GpioPin.pin_number (p : GpioPin) : Nat := p.pin_

/-- Modelled from the spec: write_file writes a value to a per-pin control
file; it fails with PIN_NOT_EXPORTED when the handle is not exported
(section 7), logs the attempted write, and fails with WRITE_FAILED when
the underlying write does not succeed (section 4.1); the body of
GpioPin::write_file is not in the sources. -/
def GpioPin.write_file (p : GpioPin) (filename value : String) (fs : Fs) :
    Except GpioError Unit × Fs :=
  if p.exported_ = false then (.error .PIN_NOT_EXPORTED, fs)
  else
    let fs1 := { fs with log := fs.log ++ [.fileWrite p.pin_ filename value] }
    if fs.writeOk p.pin_ filename value then
      (.ok (), { fs1 with contents := fun n f =>
        if n = p.pin_ ∧ f = filename then value else fs.contents n f })
    else (.error .WRITE_FAILED, fs1)

/-- Modelled from the spec: read_file reads a per-pin control file; it
fails with PIN_NOT_EXPORTED when the handle is not exported (section 7)
and with READ_FAILED on I/O failure (section 4.1); reads are const and do
not change the filesystem state; the body of GpioPin::read_file is not in
the sources. -/
def GpioPin.read_file (p : GpioPin) (filename : String) (fs : Fs) :
    Except GpioError String :=
  if p.exported_ = false then .error .PIN_NOT_EXPORTED
  else if fs.readOk p.pin_ filename then .ok (fs.contents p.pin_ filename)
  else .error .READ_FAILED

/-- Trim of leading and trailing whitespace, structurally over the
character list so that it evaluates by kernel reduction (spec section 6:
read values may carry trailing whitespace that must be trimmed before the
parse). -/
def strTrim (s : String) : String :=
  ⟨((s.data.dropWhile Char.isWhitespace).reverse.dropWhile
      Char.isWhitespace).reverse⟩

/-- Textual token written for a direction (section 6 of the spec). -/
def directionToken : Direction → String
  | .INPUT => "in"
  | .OUTPUT => "out"

/-- Textual token written for a value (section 6 of the spec). -/
def valueToken : Value → String
  | .LOW => "0"
  | .HIGH => "1"

/-- Modelled from the spec: set_direction writes the direction token to the
direction control file (section 4.1); the body of GpioPin::set_direction is
not in the sources. -/
def GpioPin.set_direction (p : GpioPin) (direction : Direction) (fs : Fs) :
    Except GpioError Unit × Fs :=
  p.write_file "direction" (directionToken direction) fs

/-- Modelled from the spec: get_direction reads and parses the direction
control file, failing with INVALID_DIRECTION when the contents parse to no
recognized token (section 4.1); the body of GpioPin::get_direction is not
in the sources. -/
def GpioPin.get_direction (p : GpioPin) (fs : Fs) : Except GpioError Direction :=
  match p.read_file "direction" fs with
  | .error e => .error e
  | .ok s =>
    if strTrim s = "in" then .ok .INPUT
    else if strTrim s = "out" then .ok .OUTPUT
    else .error .INVALID_DIRECTION

/-- Modelled from the spec: set_value writes the textual value token to the
value control file without re-validating direction (section 4.1); the body
of GpioPin::set_value is not in the sources. -/
def GpioPin.set_value (p : GpioPin) (value : Value) (fs : Fs) :
    Except GpioError Unit × Fs :=
  p.write_file "value" (valueToken value) fs

/-- Modelled from the spec: get_value reads and parses the value control
file to LOW or HIGH, trimming trailing whitespace, failing with READ_FAILED
on I/O error or unparseable content (sections 4.1 and 6); the body of
GpioPin::get_value is not in the sources. -/
def GpioPin.get_value (p : GpioPin) (fs : Fs) : Except GpioError Value :=
  match p.read_file "value" fs with
  | .error e => .error e
  | .ok s =>
    if strTrim s = "0" then .ok .LOW
    else if strTrim s = "1" then .ok .HIGH
    else .error .READ_FAILED

/-- The opposite of a value. -/
def Value.opposite : Value → Value
  | .LOW => .HIGH
  | .HIGH => .LOW

/-- Modelled from the spec: toggle reads the current value, computes the
opposite, writes it back, and returns the new value, propagating the first
error (section 4.1); the body of GpioPin::toggle is not in the sources. -/
def GpioPin.toggle (p : GpioPin) (fs : Fs) : Except GpioError Value × Fs :=
  match p.get_value fs with
  | .error e => (.error e, fs)
  | .ok v =>
    match p.set_value v.opposite fs with
    | (.ok _, fs') => (.ok v.opposite, fs')
    | (.error e, fs') => (.error e, fs')

/-- Modelled from the spec: pulse sets the value HIGH, suspends the caller
for the duration, then sets the value LOW; a failure to set HIGH aborts the
pulse with that error without attempting LOW, and a failure to set LOW
after a successful HIGH is the reported result (section 4.1); the body of
GpioPin::pulse is not in the sources. -/
def GpioPin.pulse (p : GpioPin) (duration : Nat) (fs : Fs) :
    Except GpioError Unit × Fs :=
  match p.set_value .HIGH fs with
  | (.error e, fs1) => (.error e, fs1)
  | (.ok _, fs1) =>
    let fs2 := { fs1 with log := fs1.log ++ [.sleep duration] }
    p.set_value .LOW fs2

/-- Modelled from the spec: the constructor performs the export side effect
by writing the pin number to the export control file and, on success,
records the exported flag and writes the initial direction; when the export
write does not succeed the handle is left in a well-defined inert state
with the exported flag false (section 4.1); the body of GpioPin::GpioPin is
not in the sources. -/
def GpioPin.construct (pin : Nat) (direction : Direction) (fs : Fs) :
    GpioPin × Fs :=
  let fs1 := { fs with log := fs.log ++ [.exportReq pin] }
  if fs.exportOk pin then
    let fs2 := { fs1 with exportedDir := fun n =>
      if n = pin then true else fs.exportedDir n }
    let p : GpioPin := ⟨pin, gpioPathFor pin, true⟩
    (p, (p.write_file "direction" (directionToken direction) fs2).2)
  else
    (⟨pin, gpioPathFor pin, false⟩, fs1)

/-- Modelled from the spec: the destructor writes the unexport request if
and only if the handle currently owns an active export, best-effort: a
failing unexport write is swallowed and the destructor always completes,
returning no error (sections 4.1 and 7); the bodies of GpioPin::~GpioPin
and GpioPin::unexport_pin are not in the sources. Totality of this
function, whose result type carries no error, is the model of the noexcept
never-propagates guarantee. -/
def GpioPin.destruct (p : GpioPin) (fs : Fs) : Fs :=
  if p.exported_ then
    let fs1 := { fs with log := fs.log ++ [.unexportReq p.pin_] }
    if fs.unexportOk p.pin_ then
      { fs1 with exportedDir := fun n =>
        if n = p.pin_ then false else fs.exportedDir n }
    else fs1
  else fs

/-- The make_gpio_pin helper, from the source, lines 226 to 233: for a
PinNumber argument it constructs directly; for an admitted integral
argument it performs static_cast to PinNumber, which reduces the value into
the uint8 underlying range, with no range validation, and constructs. -/
def make_gpio_pin (pin : Nat) (direction : Direction) (fs : Fs) :
    GpioPin × Fs :=
  GpioPin.construct (pin % 2 ^ 8) direction fs

/-- Modelled from the spec: move transfer copies the pin identifier, the
path and the exported flag of the source handle into the target and resets
the source to a non-owning state whose destruction is a no-op
(section 4.1); the bodies of the move constructor and move assignment are
not in the sources. A small heap of handles indexed by address models the
aliasing check of move assignment: assigning an object into itself is a
no-op. -/
def moveAssign (h : Nat → GpioPin) (dst src : Nat) : Nat → GpioPin :=
  if dst = src then h
  else fun i =>
    if i = dst then h src
    else if i = src then { h src with exported_ := false }
    else h i

/-- The state of a GpioPinGroup, from the source, line 283: the owned
handles, in insertion order. -/
structure GpioPinGroup where
  pins_ : List GpioPin
deriving DecidableEq

/-- Modelled from the spec: group construction builds one handle per pin
identifier, in the given order, each with the shared initial direction,
and keeps every handle whether or not its export succeeded (section 4.2);
the body of the GpioPinGroup constructor is not in the sources. -/
def constructPins (pins : List Nat) (direction : Direction) (fs : Fs) :
    List GpioPin × Fs :=
  match pins with
  | [] => ([], fs)
  | n :: rest =>
    let pc := GpioPin.construct n direction fs
    let rc := constructPins rest direction pc.2
    (pc.1 :: rc.1, rc.2)

/-- Modelled from the spec: the GpioPinGroup constructor wraps the handles
built by constructPins (section 4.2). -/
def GpioPinGroup.construct (pins : List Nat) (direction : Direction)
    (fs : Fs) : GpioPinGroup × Fs :=
  (⟨(constructPins pins direction fs).1⟩, (constructPins pins direction fs).2)

/-- The size accessor, from the source, line 280: the length of the owned
handle sequence. -/
def GpioPinGroup.size (g : GpioPinGroup) : Nat := g.pins_.length

/-- Modelled from the spec: get_pin returns the handle at the index when it
is in range and an absent result otherwise, with no bounds-check exception
(section 4.2); the body of GpioPinGroup::get_pin is not in the sources. -/
def GpioPinGroup.get_pin (g : GpioPinGroup) (index : Nat) : Option GpioPin :=
  if h : index < g.pins_.length then some (g.pins_.get ⟨index, h⟩) else none

/-- Modelled from the spec: a bulk setter loop applies the per-pin
operation to every owned handle in index order, remembering the first
error encountered but continuing with the remaining pins (section 4.2). -/
def runAllAux (op : GpioPin → Fs → Except GpioError Unit × Fs)
    (ps : List GpioPin) (fs : Fs) (firstErr : Option GpioError) :
    Option GpioError × Fs :=
  match ps with
  | [] => (firstErr, fs)
  | p :: rest =>
    match op p fs with
    | (.ok _, fs') => runAllAux op rest fs' firstErr
    | (.error e, fs') =>
      match firstErr with
      | some e0 => runAllAux op rest fs' (some e0)
      | none => runAllAux op rest fs' (some e)

/-- Result assembly of a bulk setter: success only when no pin failed,
otherwise the first error (section 4.2). -/
def runAll (op : GpioPin → Fs → Except GpioError Unit × Fs)
    (ps : List GpioPin) (fs : Fs) : Except GpioError Unit × Fs :=
  match runAllAux op ps fs none with
  | (none, fs') => (.ok (), fs')
  | (some e, fs') => (.error e, fs')

/-- Modelled from the spec: set_all_direction applies set_direction to
every owned handle in index order with continue-on-error, first-error
reporting (section 4.2); the body of GpioPinGroup::set_all_direction is
not in the sources. -/
def GpioPinGroup.set_all_direction (g : GpioPinGroup)
    (direction : Direction) (fs : Fs) : Except GpioError Unit × Fs :=
  runAll (fun p => p.set_direction direction) g.pins_ fs

/-- Modelled from the spec: set_all_value applies set_value to every owned
handle in index order with continue-on-error, first-error reporting,
regardless of declared direction (section 4.2); the body of
GpioPinGroup::set_all_value is not in the sources. -/
def GpioPinGroup.set_all_value (g : GpioPinGroup) (value : Value)
    (fs : Fs) : Except GpioError Unit × Fs :=
  runAll (fun p => p.set_value value) g.pins_ fs

/-- Modelled from the spec: get_all_values collects one value read per pin
in index order; when any read fails, the whole operation returns that
first error and no partial sequence (section 4.2); the body of
GpioPinGroup::get_all_values is not in the sources. Reads are const and
leave the filesystem state unchanged. -/
def getAllValuesAux (ps : List GpioPin) (fs : Fs) :
    Except GpioError (List Value) :=
  match ps with
  | [] => .ok []
  | p :: rest =>
    match p.get_value fs with
    | .error e => .error e
    | .ok v =>
      match getAllValuesAux rest fs with
      | .error e => .error e
      | .ok vs => .ok (v :: vs)

/-- Modelled from the spec: get_all_values on a group (section 4.2). -/
def GpioPinGroup.get_all_values (g : GpioPinGroup) (fs : Fs) :
    Except GpioError (List Value) :=
  getAllValuesAux g.pins_ fs

/-- Reference reading of the spec sentence "returns the first error
encountered": the error of the first pin in sequence whose operation
fails, with the state threaded through the earlier successful
operations. -/
def firstErrorSpec (op : GpioPin → Fs → Except GpioError Unit × Fs)
    (ps : List GpioPin) (fs : Fs) : Option GpioError :=
  match ps with
  | [] => none
  | p :: rest =>
    match op p fs with
    | (.ok _, fs') => firstErrorSpec op rest fs'
    | (.error e, _) => some e

/-- A permissive environment: every export, unexport, write and read
succeeds, every file is initially empty. -/
def fs0 : Fs :=
  { contents := fun _ _ => ""
    exportedDir := fun _ => false
    exportOk := fun _ => true
    unexportOk := fun _ => true
    writeOk := fun _ _ _ => true
    readOk := fun _ _ => true
    log := [] }

/-- An environment in which every write to the value file of pin 18
fails, and everything else succeeds. -/
def fsBad18 : Fs :=
  { fs0 with
    writeOk := fun n f _ => decide (¬ (n = 18 ∧ f = "value"))
    readOk := fun n _ => decide (n ≠ 18) }

/-- An environment in which every export write fails. -/
def fsNoExport : Fs := { fs0 with exportOk := fun _ => false }

/-- An environment in which the export of pin 18 fails and everything else
succeeds. -/
def fsExp18Fail : Fs := { fs0 with exportOk := fun n => decide (n ≠ 18) }

/-- An environment in which writing the LOW token to the value file of
pin 17 fails and everything else succeeds. -/
def fsLowFail17 : Fs :=
  { fs0 with writeOk := fun n f c => decide (¬ (n = 17 ∧ f = "value" ∧ c = "0")) }

/-- A concrete two-handle heap: address 0 holds an exported handle for
pin 17, address 1 holds a non-owning handle for pin 18. -/
def heap0 : Nat → GpioPin := fun i =>
  if i = 0 then ⟨17, gpioPathFor 17, true⟩ else ⟨18, gpioPathFor 18, false⟩

/-- The filesystem state after a bulk setter run is the full fold of the
per-pin operation over every owned pin in order: every pin is attempted,
whatever the earlier outcomes. -/
theorem runAllAux_fs (op : GpioPin → Fs → Except GpioError Unit × Fs)
    (ps : List GpioPin) (fs : Fs) (firstErr : Option GpioError) :
    (runAllAux op ps fs firstErr).2
      = ps.foldl (fun a p => (op p a).2) fs := by
  induction ps generalizing fs firstErr with
  | nil => rfl
  | cons p rest ih =>
    unfold runAllAux
    rcases hop : op p fs with ⟨r, fs'⟩
    cases r with
    | ok u => simp [hop, ih, List.foldl_cons]
    | error e =>
      cases firstErr with
      | some e0 => simp [hop, ih, List.foldl_cons]
      | none => simp [hop, ih, List.foldl_cons]

/-- A recorded first error is never overwritten by later failures. -/
theorem runAllAux_keeps_first (op : GpioPin → Fs → Except GpioError Unit × Fs)
    (ps : List GpioPin) (fs : Fs) (e0 : GpioError) :
    (runAllAux op ps fs (some e0)).1 = some e0 := by
  induction ps generalizing fs with
  | nil => rfl
  | cons p rest ih =>
    unfold runAllAux
    rcases hop : op p fs with ⟨r, fs'⟩
    cases r with
    | ok u => simp [ih]
    | error e => simp [ih]

/-- Started with no recorded error, the bulk setter loop reports exactly
the first error of the run. -/
theorem runAllAux_first_error (op : GpioPin → Fs → Except GpioError Unit × Fs)
    (ps : List GpioPin) (fs : Fs) :
    (runAllAux op ps fs none).1 = firstErrorSpec op ps fs := by
  induction ps generalizing fs with
  | nil => rfl
  | cons p rest ih =>
    unfold runAllAux firstErrorSpec
    rcases hop : op p fs with ⟨r, fs'⟩
    cases r with
    | ok u => simp [ih]
    | error e => simp [runAllAux_keeps_first]

/-- C10: to_string over the underlying integer of GpioError is a total
deterministic function (a Lean function), maps the six enumerated error
values to pairwise distinct non-empty description strings, and maps every
other underlying value to the fallback string. -/
theorem to_string_total_distinct_fallback :
    (∀ a b : GpioError, a ≠ b →
      to_string a.toUnderlying ≠ to_string b.toUnderlying) ∧
    (∀ a : GpioError, to_string a.toUnderlying ≠ "") ∧
    (∀ e : Int, (∀ a : GpioError, e ≠ a.toUnderlying) →
      to_string e = "Unknown GPIO error") := by
  refine ⟨by decide, by decide, ?_⟩
  intro e he
  have h0 : e ≠ (0 : Int) := he .PIN_NOT_EXPORTED
  have h1 : e ≠ (1 : Int) := he .INVALID_DIRECTION
  have h2 : e ≠ (2 : Int) := he .READ_FAILED
  have h3 : e ≠ (3 : Int) := he .WRITE_FAILED
  have h4 : e ≠ (4 : Int) := he .PERMISSION_DENIED
  have h5 : e ≠ (5 : Int) := he .DEVICE_BUSY
  unfold to_string
  rw [if_neg h0, if_neg h1, if_neg h2, if_neg h3, if_neg h4, if_neg h5]

/-- C10 witness: the underlying value 6 belongs to no enumerator and is
mapped to the fallback string. -/
theorem to_string_fallback_witness :
    (∀ a : GpioError, (6 : Int) ≠ a.toUnderlying) ∧
      to_string 6 = "Unknown GPIO error" :=
  ⟨by decide, to_string_total_distinct_fallback.2.2 6 (by decide)⟩

/-- C2 counterexample: the integral value 0 fits in one byte, so the
GpioPinType concept admits its type; 0 is not one of the enumerated pin
numbers, yet make_gpio_pin accepts it with no compile-time or
construction-time rejection: the constructed handle carries pin 0 and, in
an environment whose export write succeeds, is even ready. -/
theorem make_gpio_pin_out_of_range_accepted :
    GpioPinType (CppNumKind.integralType 1) = true ∧
    pinNumberValues.contains 0 = false ∧
    (make_gpio_pin 0 Direction.INPUT fs0).1.pin_ = 0 ∧
    (make_gpio_pin 0 Direction.INPUT fs0).1.is_ready = true := by
  decide

/-- C2 as amended: the GpioPinType concept rejects integral argument types
wider than one byte at compile time and admits PinNumber itself, but a
one-byte integral value outside the enumerated set is not rejected:
make_gpio_pin reduces the value into the uint8 range by static_cast and
constructs a handle for it with no range validation, the exported flag of
the result depending only on the environment export oracle, never on
membership of the pin in the enumerated set. -/
theorem make_gpio_pin_no_range_validation (pin : Nat)
    (direction : Direction) (fs : Fs) :
    GpioPinType (CppNumKind.integralType 4) = false ∧
    GpioPinType CppNumKind.pinNumberType = true ∧
    (make_gpio_pin pin direction fs).1.pin_ = pin % 2 ^ 8 ∧
    (make_gpio_pin pin direction fs).1.exported_ = fs.exportOk (pin % 2 ^ 8) := by
  refine ⟨rfl, rfl, ?_, ?_⟩ <;>
  · unfold make_gpio_pin GpioPin.construct
    split <;> simp_all

/-- C9: get_pin agrees with optional indexing into the owned handle
sequence, so it is total: it returns the handle at the index exactly when
the index is in range and an absent result otherwise, and never a
bounds-check exception. -/
theorem get_pin_total (g : GpioPinGroup) (index : Nat) :
    g.get_pin index = g.pins_[index]? ∧
    ((g.get_pin index).isSome ↔ index < g.size) := by
  unfold GpioPinGroup.get_pin GpioPinGroup.size
  constructor
  · split
    · next h => simp [List.getElem?_eq_getElem h]
    · next h => simp [List.getElem?_eq_none (Nat.le_of_not_lt h)]
  · split <;> simp_all

/-- C1: the destructor writes the unexport request if and only if the
handle currently owns an active export; it is a total function whose
result carries no error, so a failing unexport write is swallowed and
never propagated; and destroying the handle produced by a construction
whose export write failed performs no unexport write and leaves the
filesystem state untouched. -/
theorem destructor_unexport_iff_owned (p : GpioPin) (fs : Fs) :
    ((p.destruct fs).log = fs.log ++ [Event.unexportReq p.pin_]
      ↔ p.exported_ = true) ∧
    (p.exported_ = false → p.destruct fs = fs) ∧
    (∀ pin direction, fs.exportOk pin = false →
      (GpioPin.construct pin direction fs).1.destruct
          (GpioPin.construct pin direction fs).2
        = (GpioPin.construct pin direction fs).2) := by
  refine ⟨?_, ?_, ?_⟩
  · cases hp : p.exported_
    · simp [GpioPin.destruct, hp]
    · unfold GpioPin.destruct
      rw [hp]
      simp only [if_true]
      constructor
      · intro _; trivial
      · intro _
        split <;> rfl
  · intro h
    simp [GpioPin.destruct, h]
  · intro pin direction hex
    simp [GpioPin.construct, hex, GpioPin.destruct]

/-- C1 witness: an exported handle for pin 17 logs exactly one unexport
request on destruction, and the handle built in an environment refusing
every export performs no unexport on destruction. -/
theorem destructor_unexport_witness :
    (((⟨17, gpioPathFor 17, true⟩ : GpioPin).destruct fs0).log
      = fs0.log ++ [Event.unexportReq 17]) ∧
    fsNoExport.exportOk 17 = false ∧
    ((GpioPin.construct 17 Direction.INPUT fsNoExport).1.destruct
        (GpioPin.construct 17 Direction.INPUT fsNoExport).2
      = (GpioPin.construct 17 Direction.INPUT fsNoExport).2) :=
  ⟨(destructor_unexport_iff_owned ⟨17, gpioPathFor 17, true⟩ fs0).1.mpr rfl,
   rfl,
   (destructor_unexport_iff_owned ⟨17, gpioPathFor 17, true⟩ fsNoExport).2.2
     17 Direction.INPUT rfl⟩

/-- C3: move transfer into a distinct target copies the pin identifier,
path and exported flag of the source into the target (the target becomes
the source handle), resets the source to a non-owning state whose
destruction changes nothing, makes the target the single live owner whose
destruction writes the unexport request when the source owned the export,
and moving a handle into itself leaves the heap unchanged. -/
theorem move_transfer_ownership (h : Nat → GpioPin) (dst src : Nat)
    (fs : Fs) (hne : dst ≠ src) :
    moveAssign h dst src dst = h src ∧
    (moveAssign h dst src src).exported_ = false ∧
    (moveAssign h dst src src).destruct fs = fs ∧
    ((h src).exported_ = true →
      ((moveAssign h dst src dst).destruct fs).log
        = fs.log ++ [Event.unexportReq (h src).pin_]) ∧
    (∀ i, moveAssign h i i = h) := by
  have hsym : src ≠ dst := Ne.symm hne
  refine ⟨?_, ?_, ?_, ?_, ?_⟩
  · simp [moveAssign, hne]
  · simp [moveAssign, hne, hsym]
  · simp [moveAssign, hne, hsym, GpioPin.destruct]
  · intro hexp
    have hdst : moveAssign h dst src dst = h src := by simp [moveAssign, hne]
    rw [hdst]
    unfold GpioPin.destruct
    rw [hexp]
    simp only [if_true]
    split <;> rfl
  · intro i
    simp [moveAssign]

/-- C3 witness: moving the exported pin 17 handle at address 0 into
address 1 of the concrete heap transfers the fields and the export, the
reset source destructs silently, and a self move at address 2 is the
identity. -/
theorem move_transfer_ownership_witness :
    moveAssign heap0 1 0 1 = heap0 0 ∧
    (moveAssign heap0 1 0 0).exported_ = false ∧
    (moveAssign heap0 1 0 0).destruct fs0 = fs0 ∧
    ((moveAssign heap0 1 0 1).destruct fs0).log
      = fs0.log ++ [Event.unexportReq 17] ∧
    moveAssign heap0 2 2 = heap0 :=
  have t := move_transfer_ownership heap0 1 0 fs0 (by decide)
  ⟨t.1, t.2.1, t.2.2.1, t.2.2.2.1 rfl, t.2.2.2.2 2⟩

/-- The three-pin group of the spec scenario, built in the environment in
which every value write of pin 18 fails. -/
def groupBad : GpioPinGroup :=
  (GpioPinGroup.construct [17, 18, 19] Direction.OUTPUT fsBad18).1

/-- The filesystem state after constructing the three-pin group in that
environment. -/
def fsAfterBad : Fs :=
  (GpioPinGroup.construct [17, 18, 19] Direction.OUTPUT fsBad18).2

/-- The result component of a bulk setter is success when no pin failed
and the first error of the run otherwise. -/
theorem runAll_first_error (op : GpioPin → Fs → Except GpioError Unit × Fs)
    (ps : List GpioPin) (fs : Fs) :
    (runAll op ps fs).1 = (match firstErrorSpec op ps fs with
      | none => Except.ok () | some e => Except.error e) := by
  unfold runAll
  have hfe := runAllAux_first_error op ps fs
  rcases hx : runAllAux op ps fs none with ⟨r, fs2⟩
  rw [hx] at hfe
  rw [← hfe]
  cases r <;> rfl

/-- The filesystem component of a bulk setter is the full fold over every
pin. -/
theorem runAll_fs (op : GpioPin → Fs → Except GpioError Unit × Fs)
    (ps : List GpioPin) (fs : Fs) :
    (runAll op ps fs).2 = ps.foldl (fun a p => (op p a).2) fs := by
  unfold runAll
  have h := runAllAux_fs op ps fs none
  rcases hx : runAllAux op ps fs none with ⟨r, fs2⟩
  rw [hx] at h
  cases r <;> exact h

/-- C4: each bulk setter applies its per-pin operation to every owned
handle in index order, continuing after failures, its final filesystem
state being the full fold over all pins; it returns success exactly when
no pin failed and otherwise the first error of the run; and in the
concrete spec scenario of three pins whose middle value write is forced to
fail, set_all_value HIGH still writes HIGH to pins 17 and 19 and reports
WRITE_FAILED. -/
theorem set_all_continue_first_error (g : GpioPinGroup) (v : Value)
    (d : Direction) (fs : Fs) :
    (g.set_all_value v fs).2
      = g.pins_.foldl (fun a p => (p.set_value v a).2) fs ∧
    (g.set_all_value v fs).1
      = (match firstErrorSpec (fun p => p.set_value v) g.pins_ fs with
         | none => Except.ok () | some e => Except.error e) ∧
    (g.set_all_direction d fs).2
      = g.pins_.foldl (fun a p => (p.set_direction d a).2) fs ∧
    (g.set_all_direction d fs).1
      = (match firstErrorSpec (fun p => p.set_direction d) g.pins_ fs with
         | none => Except.ok () | some e => Except.error e) ∧
    (groupBad.set_all_value Value.HIGH fsAfterBad).1
      = Except.error GpioError.WRITE_FAILED ∧
    (groupBad.set_all_value Value.HIGH fsAfterBad).2.contents 17 "value" = "1" ∧
    (groupBad.set_all_value Value.HIGH fsAfterBad).2.contents 19 "value" = "1" :=
  ⟨runAll_fs _ g.pins_ fs, runAll_first_error _ g.pins_ fs,
   runAll_fs _ g.pins_ fs, runAll_first_error _ g.pins_ fs,
   by decide, by decide, by decide⟩

/-- A successful bulk read returns one value per pin, in index order. -/
theorem getAllValuesAux_ok (ps : List GpioPin) (fs : Fs) (vs : List Value)
    (h : getAllValuesAux ps fs = .ok vs) :
    vs.length = ps.length ∧
    ∀ i, i < ps.length →
      ∃ p v, ps[i]? = some p ∧ p.get_value fs = .ok v ∧ vs[i]? = some v := by
  induction ps generalizing vs with
  | nil =>
    unfold getAllValuesAux at h
    injection h with h'
    subst h'
    exact ⟨rfl, fun i hi => absurd hi (by simp)⟩
  | cons p rest ih =>
    unfold getAllValuesAux at h
    cases hv : p.get_value fs with
    | error e => rw [hv] at h; cases h
    | ok v =>
      rw [hv] at h
      cases hrest : getAllValuesAux rest fs with
      | error e => rw [hrest] at h; cases h
      | ok vs' =>
        rw [hrest] at h
        injection h with h'
        subst h'
        obtain ⟨hlen, hidx⟩ := ih vs' hrest
        refine ⟨by simp [hlen], ?_⟩
        intro i hi
        cases i with
        | zero => exact ⟨p, v, by simp, hv, by simp⟩
        | succ j =>
          obtain ⟨q, w, hq, hw, hvw⟩ :=
            hidx j (by simp only [List.length_cons] at hi; omega)
          exact ⟨q, w, by simpa using hq, hw, by simpa using hvw⟩

/-- A bulk read whose first failing pin sits at index i, every earlier pin
succeeding, returns exactly that first error. -/
theorem getAllValuesAux_first_error (ps : List GpioPin) (fs : Fs)
    (i : Nat) (p : GpioPin) (e : GpioError)
    (hp : ps[i]? = some p) (he : p.get_value fs = .error e)
    (hpre : ∀ j q, j < i → ps[j]? = some q → ∃ v, q.get_value fs = .ok v) :
    getAllValuesAux ps fs = .error e := by
  induction ps generalizing i with
  | nil => simp at hp
  | cons q rest ih =>
    cases i with
    | zero =>
      simp only [List.getElem?_cons_zero, Option.some.injEq] at hp
      subst hp
      unfold getAllValuesAux
      rw [he]
    | succ j =>
      obtain ⟨v, hv⟩ := hpre 0 q (Nat.succ_pos j) (by simp)
      unfold getAllValuesAux
      rw [hv]
      have hrest : getAllValuesAux rest fs = .error e :=
        ih j (by simpa using hp)
          (fun k r hk hr => hpre (k + 1) r (by omega) (by simpa using hr))
      rw [hrest]

/-- C5: get_all_values reads one value per pin in index order; a
successful result holds exactly size many values, the value at each index
being the read of the pin at that index; and when the pin at some index
fails while every earlier pin succeeds, the whole operation returns that
first error, never a partial sequence. -/
theorem get_all_values_ordered_or_first_error (g : GpioPinGroup) (fs : Fs) :
    (∀ vs, g.get_all_values fs = .ok vs →
      vs.length = g.size ∧
      ∀ i, i < g.size →
        ∃ (p : GpioPin) (v : Value), g.pins_[i]? = some p ∧
          p.get_value fs = .ok v ∧ vs[i]? = some v) ∧
    (∀ (i : Nat) (p : GpioPin) (e : GpioError),
      g.pins_[i]? = some p → p.get_value fs = .error e →
      (∀ (j : Nat) (q : GpioPin), j < i → g.pins_[j]? = some q →
        ∃ v, q.get_value fs = .ok v) →
      g.get_all_values fs = .error e) := by
  constructor
  · intro vs h
    exact getAllValuesAux_ok g.pins_ fs vs h
  · intro i p e hp he hpre
    exact getAllValuesAux_first_error g.pins_ fs i p e hp he hpre

/-- C5 witness: in the three-pin scenario group, the read of the pin at
index 0 fails (its value file was never successfully written), and
get_all_values reports exactly that first error with no partial
sequence. -/
theorem get_all_values_first_error_witness :
    groupBad.pins_[(0 : Nat)]? = some ⟨17, gpioPathFor 17, true⟩ ∧
    (⟨17, gpioPathFor 17, true⟩ : GpioPin).get_value fsAfterBad
      = Except.error GpioError.READ_FAILED ∧
    groupBad.get_all_values fsAfterBad
      = Except.error GpioError.READ_FAILED :=
  ⟨by decide, by decide,
   (get_all_values_ordered_or_first_error groupBad fsAfterBad).2
     0 ⟨17, gpioPathFor 17, true⟩ GpioError.READ_FAILED (by decide) (by decide)
     (fun j q hj _ => absurd hj (Nat.not_lt_zero j))⟩

/-- Writing a control file never changes the export oracle of the
environment. -/
theorem write_file_exportOk (p : GpioPin) (f c : String) (fs : Fs) :
    ((p.write_file f c fs).2).exportOk = fs.exportOk := by
  unfold GpioPin.write_file
  split
  · rfl
  · split <;> rfl

/-- Constructing a handle never changes the export oracle of the
environment. -/
theorem construct_exportOk (n : Nat) (d : Direction) (fs : Fs) :
    ((GpioPin.construct n d fs).2).exportOk = fs.exportOk := by
  unfold GpioPin.construct
  split
  · rw [write_file_exportOk]
  · rfl

/-- The handle returned by construction carries the requested pin number,
and its exported flag records exactly whether the environment let the
export succeed. -/
theorem construct_pin_fields (n : Nat) (d : Direction) (fs : Fs) :
    (GpioPin.construct n d fs).1.pin_ = n ∧
    (GpioPin.construct n d fs).1.exported_ = fs.exportOk n := by
  unfold GpioPin.construct
  split <;> simp_all

/-- Group construction builds one handle per requested identifier, in
order, never dropping a handle whose export failed; each handle records
the export outcome of its own pin. -/
theorem constructPins_keeps_all (pins : List Nat) (direction : Direction)
    (fs : Fs) :
    (constructPins pins direction fs).1.length = pins.length ∧
    ((constructPins pins direction fs).2.exportOk = fs.exportOk) ∧
    ∀ (i : Nat) (n : Nat), pins[i]? = some n →
      ∃ p : GpioPin, (constructPins pins direction fs).1[i]? = some p ∧
        p.pin_ = n ∧ p.exported_ = fs.exportOk n := by
  induction pins generalizing fs with
  | nil =>
    exact ⟨rfl, rfl, fun i n h => by simp at h⟩
  | cons m rest ih =>
    obtain ⟨ihlen, ihok, ihidx⟩ := ih (GpioPin.construct m direction fs).2
    have hok : (GpioPin.construct m direction fs).2.exportOk = fs.exportOk :=
      construct_exportOk m direction fs
    refine ⟨?_, ?_, ?_⟩
    · show ((GpioPin.construct m direction fs).1 ::
        (constructPins rest direction (GpioPin.construct m direction fs).2).1).length
          = rest.length + 1
      simp [ihlen]
    · show (constructPins rest direction
        (GpioPin.construct m direction fs).2).2.exportOk = fs.exportOk
      rw [ihok, hok]
    · intro i n h
      cases i with
      | zero =>
        simp only [List.getElem?_cons_zero, Option.some.injEq] at h
        subst h
        exact ⟨(GpioPin.construct m direction fs).1, by simp [constructPins],
          (construct_pin_fields m direction fs).1,
          (construct_pin_fields m direction fs).2⟩
      | succ j =>
        obtain ⟨p, hp, hpin, hexp⟩ := ihidx j n (by simpa using h)
        refine ⟨p, ?_, hpin, ?_⟩
        · show ((GpioPin.construct m direction fs).1 ::
            (constructPins rest direction
              (GpioPin.construct m direction fs).2).1)[j + 1]? = some p
          simpa using hp
        · rw [hexp, hok]

/-- C6: constructing a pin group from N identifiers yields a group of
size exactly N whatever the export outcomes, the handle at each index
carrying the identifier at the same index in the request, with its
exported flag recording only whether the export of that pin succeeded: a
failed export does not abort construction, the not-ready handle is kept in
place. -/
theorem group_construct_keeps_all (pins : List Nat) (direction : Direction)
    (fs : Fs) :
    (GpioPinGroup.construct pins direction fs).1.size = pins.length ∧
    ∀ (i : Nat) (n : Nat), pins[i]? = some n →
      ∃ p : GpioPin,
        (GpioPinGroup.construct pins direction fs).1.pins_[i]? = some p ∧
        p.pin_ = n ∧ p.exported_ = fs.exportOk n := by
  obtain ⟨hlen, _, hidx⟩ := constructPins_keeps_all pins direction fs
  exact ⟨hlen, hidx⟩

/-- C6 witness: constructing the three-pin group in the environment that
refuses to export pin 18 still yields a group of size three whose middle
handle carries pin 18 with the exported flag false. -/
theorem group_construct_keeps_all_witness :
    (GpioPinGroup.construct [17, 18, 19] Direction.OUTPUT fsExp18Fail).1.size
      = 3 ∧
    ∃ p : GpioPin,
      (GpioPinGroup.construct [17, 18, 19] Direction.OUTPUT
        fsExp18Fail).1.pins_[(1 : Nat)]? = some p ∧
      p.pin_ = 18 ∧ p.exported_ = fsExp18Fail.exportOk 18 :=
  ⟨(group_construct_keeps_all [17, 18, 19] Direction.OUTPUT fsExp18Fail).1,
   (group_construct_keeps_all [17, 18, 19] Direction.OUTPUT fsExp18Fail).2
     1 18 (by decide)⟩

/-- Trimming the LOW token is the identity. -/
theorem strTrim_zero : strTrim "0" = "0" := by decide

/-- Trimming the HIGH token is the identity. -/
theorem strTrim_one : strTrim "1" = "1" := by decide

/-- The two value tokens are distinct strings. -/
theorem one_ne_zero_str : (("1" : String) = "0") = False :=
  eq_false (by decide)

/-- Writing a control file never changes the write and read oracles of the
environment. -/
theorem write_file_oracles (p : GpioPin) (f c : String) (fs : Fs) :
    ((p.write_file f c fs).2).writeOk = fs.writeOk ∧
    ((p.write_file f c fs).2).readOk = fs.readOk := by
  unfold GpioPin.write_file
  split
  · exact ⟨rfl, rfl⟩
  · split <;> exact ⟨rfl, rfl⟩

/-- set_value never changes the write and read oracles of the
environment. -/
theorem set_value_oracles (p : GpioPin) (v : Value) (fs : Fs) :
    ((p.set_value v fs).2).writeOk = fs.writeOk ∧
    ((p.set_value v fs).2).readOk = fs.readOk :=
  write_file_oracles p "value" (valueToken v) fs

/-- A value write on an exported handle whose environment lets the write
succeed returns success. -/
theorem set_value_ok (p : GpioPin) (v : Value) (fs : Fs)
    (hexp : p.exported_ = true)
    (hwv : fs.writeOk p.pin_ "value" (valueToken v) = true) :
    (p.set_value v fs).1 = Except.ok () := by
  simp [GpioPin.set_value, GpioPin.write_file, hexp, hwv]

/-- An attempted value write on an exported handle is logged, whether or
not the environment lets it succeed. -/
theorem write_file_log (p : GpioPin) (f c : String) (fs : Fs)
    (hexp : p.exported_ = true) :
    ((p.write_file f c fs).2).log = fs.log ++ [Event.fileWrite p.pin_ f c] := by
  unfold GpioPin.write_file
  split
  · next hcond => rw [hexp] at hcond; simp at hcond
  · split <;> rfl

/-- The log effect of set_value on an exported handle. -/
theorem set_value_log (p : GpioPin) (v : Value) (fs : Fs)
    (hexp : p.exported_ = true) :
    ((p.set_value v fs).2).log
      = fs.log ++ [Event.fileWrite p.pin_ "value" (valueToken v)] :=
  write_file_log p "value" (valueToken v) fs hexp

/-- Setting a value and reading it back on an exported handle in an
environment letting both operations succeed returns the value written. -/
theorem set_then_get (p : GpioPin) (fs : Fs) (v : Value)
    (hexp : p.exported_ = true)
    (hwv : fs.writeOk p.pin_ "value" (valueToken v) = true)
    (hr : fs.readOk p.pin_ "value" = true) :
    p.get_value ((p.set_value v fs).2) = .ok v := by
  cases v with
  | LOW =>
    have h0 : fs.writeOk p.pin_ "value" "0" = true := hwv
    simp [GpioPin.set_value, GpioPin.write_file, GpioPin.get_value,
      GpioPin.read_file, hexp, hr, h0, valueToken, strTrim_zero]
  | HIGH =>
    have h1 : fs.writeOk p.pin_ "value" "1" = true := hwv
    simp [GpioPin.set_value, GpioPin.write_file, GpioPin.get_value,
      GpioPin.read_file, hexp, hr, h1, valueToken, strTrim_one,
      one_ne_zero_str]

/-- C7: on an exported handle in an environment letting value writes and
reads succeed, set_value of v followed by get_value returns v; toggle
after setting LOW reads LOW, writes the opposite back and returns HIGH;
and reading after that toggle still returns HIGH, so the pin is left
HIGH. -/
theorem set_get_roundtrip_toggle (p : GpioPin) (fs : Fs) (v : Value)
    (hexp : p.exported_ = true)
    (hw : ∀ c, fs.writeOk p.pin_ "value" c = true)
    (hr : fs.readOk p.pin_ "value" = true) :
    p.get_value ((p.set_value v fs).2) = .ok v ∧
    (p.toggle ((p.set_value Value.LOW fs).2)).1 = .ok Value.HIGH ∧
    p.get_value ((p.toggle ((p.set_value Value.LOW fs).2)).2)
      = .ok Value.HIGH := by
  have hround := set_then_get p fs v hexp (hw (valueToken v)) hr
  have h1w : ((p.set_value Value.LOW fs).2).writeOk = fs.writeOk :=
    (set_value_oracles p Value.LOW fs).1
  have h1r : ((p.set_value Value.LOW fs).2).readOk = fs.readOk :=
    (set_value_oracles p Value.LOW fs).2
  have hget1 : p.get_value ((p.set_value Value.LOW fs).2) = .ok Value.LOW :=
    set_then_get p fs Value.LOW hexp (hw (valueToken Value.LOW)) hr
  have hsvok : (p.set_value Value.HIGH ((p.set_value Value.LOW fs).2)).1
      = Except.ok () :=
    set_value_ok p Value.HIGH ((p.set_value Value.LOW fs).2) hexp
      (by rw [h1w]; exact hw (valueToken Value.HIGH))
  have h2 : p.toggle ((p.set_value Value.LOW fs).2)
      = ((Except.ok Value.HIGH : Except GpioError Value),
         (p.set_value Value.HIGH ((p.set_value Value.LOW fs).2)).2) := by
    unfold GpioPin.toggle
    rw [hget1]
    show (match p.set_value Value.HIGH ((p.set_value Value.LOW fs).2) with
          | (.ok _, fs') => ((Except.ok Value.HIGH : Except GpioError Value), fs')
          | (.error e, fs') =>
            ((Except.error e : Except GpioError Value), fs'))
        = ((Except.ok Value.HIGH : Except GpioError Value),
           (p.set_value Value.HIGH ((p.set_value Value.LOW fs).2)).2)
    rcases hsv : p.set_value Value.HIGH ((p.set_value Value.LOW fs).2)
      with ⟨r2, fs2⟩
    rw [hsv] at hsvok
    have hr2 : r2 = Except.ok () := hsvok
    subst hr2
    rfl
  refine ⟨hround, ?_, ?_⟩
  · rw [h2]
  · rw [h2]
    exact set_then_get p ((p.set_value Value.LOW fs).2) Value.HIGH hexp
      (by rw [h1w]; exact hw (valueToken Value.HIGH)) (by rw [h1r]; exact hr)

/-- C7 witness: the round trip and the toggle on a concrete exported
handle for pin 17 in the permissive environment. -/
theorem set_get_roundtrip_toggle_witness :
    (⟨17, gpioPathFor 17, true⟩ : GpioPin).get_value
        (((⟨17, gpioPathFor 17, true⟩ : GpioPin).set_value Value.HIGH fs0).2)
      = .ok Value.HIGH ∧
    ((⟨17, gpioPathFor 17, true⟩ : GpioPin).toggle
        (((⟨17, gpioPathFor 17, true⟩ : GpioPin).set_value Value.LOW fs0).2)).1
      = .ok Value.HIGH ∧
    (⟨17, gpioPathFor 17, true⟩ : GpioPin).get_value
        (((⟨17, gpioPathFor 17, true⟩ : GpioPin).toggle
          (((⟨17, gpioPathFor 17, true⟩ : GpioPin).set_value
            Value.LOW fs0).2)).2)
      = .ok Value.HIGH :=
  set_get_roundtrip_toggle ⟨17, gpioPathFor 17, true⟩ fs0 Value.HIGH rfl
    (fun _ => rfl) rfl

/-- C8: pulse first sets HIGH; when that write reports an error the pulse
returns exactly that error and that filesystem state, with no sleep and no
LOW attempt; when the HIGH write succeeds the pulse suspends for the
duration and then sets LOW, returning the result of the LOW write; on an
exported handle whose HIGH write succeeds the event log shows the HIGH
write, the sleep, then the LOW write attempt, in order; and when the LOW
write is refused the reported result is that failure (leaving the pin
HIGH). -/
theorem pulse_high_sleep_low_first_error (p : GpioPin) (d : Nat) (fs : Fs) :
    ((p.set_value Value.HIGH fs).1 = Except.ok () →
      p.pulse d fs = p.set_value Value.LOW
        { (p.set_value Value.HIGH fs).2 with
          log := (p.set_value Value.HIGH fs).2.log ++ [Event.sleep d] }) ∧
    (∀ e, (p.set_value Value.HIGH fs).1 = Except.error e →
      p.pulse d fs = (Except.error e, (p.set_value Value.HIGH fs).2)) ∧
    (p.exported_ = true → fs.writeOk p.pin_ "value" "1" = true →
      (p.pulse d fs).2.log = fs.log ++ [Event.fileWrite p.pin_ "value" "1",
        Event.sleep d, Event.fileWrite p.pin_ "value" "0"]) ∧
    (p.exported_ = true → fs.writeOk p.pin_ "value" "1" = true →
      fs.writeOk p.pin_ "value" "0" = false →
      (p.pulse d fs).1 = Except.error GpioError.WRITE_FAILED) := by
  refine ⟨?_, ?_, ?_, ?_⟩
  · intro h
    unfold GpioPin.pulse
    rcases hsv : p.set_value Value.HIGH fs with ⟨r, fsH⟩
    rw [hsv] at h
    have hr : r = Except.ok () := h
    subst hr
    rfl
  · intro e h
    unfold GpioPin.pulse
    rcases hsv : p.set_value Value.HIGH fs with ⟨r, fsH⟩
    rw [hsv] at h
    have hr : r = Except.error e := h
    subst hr
    rfl
  · intro hexp hw1
    have hok : (p.set_value Value.HIGH fs).1 = Except.ok () :=
      set_value_ok p Value.HIGH fs hexp hw1
    have hlogH := set_value_log p Value.HIGH fs hexp
    unfold GpioPin.pulse
    rcases hsv : p.set_value Value.HIGH fs with ⟨r, fsH⟩
    rw [hsv] at hok hlogH
    have hr : r = Except.ok () := hok
    subst hr
    have hHlog : fsH.log = fs.log ++ [Event.fileWrite p.pin_ "value" "1"] :=
      hlogH
    show (p.set_value Value.LOW
        { fsH with log := fsH.log ++ [Event.sleep d] }).2.log = _
    rw [set_value_log p Value.LOW _ hexp]
    simp [hHlog, valueToken]
  · intro hexp hw1 hw0
    have hok : (p.set_value Value.HIGH fs).1 = Except.ok () :=
      set_value_ok p Value.HIGH fs hexp hw1
    have hwo := (set_value_oracles p Value.HIGH fs).1
    unfold GpioPin.pulse
    rcases hsv : p.set_value Value.HIGH fs with ⟨r, fsH⟩
    rw [hsv] at hok hwo
    have hr : r = Except.ok () := hok
    subst hr
    have hwoH : fsH.writeOk = fs.writeOk := hwo
    show (p.set_value Value.LOW
        { fsH with log := fsH.log ++ [Event.sleep d] }).1
      = Except.error GpioError.WRITE_FAILED
    simp [GpioPin.set_value, GpioPin.write_file, hexp, valueToken, hwoH, hw0]

/-- C8 witness: on the exported pin 17 handle in the environment refusing
only the LOW write, the pulse logs the HIGH write, the sleep and the LOW
attempt in order and reports WRITE_FAILED; on a non-exported handle the
pulse aborts with the HIGH failure, attempting nothing further. -/
theorem pulse_first_error_witness :
    ((⟨17, gpioPathFor 17, true⟩ : GpioPin).pulse 5 fsLowFail17).2.log
      = fsLowFail17.log ++ [Event.fileWrite 17 "value" "1", Event.sleep 5,
          Event.fileWrite 17 "value" "0"] ∧
    ((⟨17, gpioPathFor 17, true⟩ : GpioPin).pulse 5 fsLowFail17).1
      = Except.error GpioError.WRITE_FAILED ∧
    ((⟨17, gpioPathFor 17, false⟩ : GpioPin).pulse 5 fs0)
      = (Except.error GpioError.PIN_NOT_EXPORTED,
         ((⟨17, gpioPathFor 17, false⟩ : GpioPin).set_value
           Value.HIGH fs0).2) :=
  ⟨(pulse_high_sleep_low_first_error ⟨17, gpioPathFor 17, true⟩ 5
      fsLowFail17).2.2.1 rfl (by decide),
   (pulse_high_sleep_low_first_error ⟨17, gpioPathFor 17, true⟩ 5
      fsLowFail17).2.2.2 rfl (by decide) (by decide),
   (pulse_high_sleep_low_first_error ⟨17, gpioPathFor 17, false⟩ 5
      fs0).2.1 GpioError.PIN_NOT_EXPORTED rfl⟩

end EmbeddedGpio
